import Mathlib

/-!
Formal model of the jumpkwapp window activator (repository jasalt/jumpkwapp-go).

The program has two components:

* a KWin window-management script, src/kwin_script_template.js, which selects
  the windows matching a filter specification, cycles focus between them, and
  reports a boolean decision over D-Bus; modelled here as pure functions over a
  `Workspace` value together with an explicit trace of host-visible effects;
* a Go orchestrator, src/main.go, which parses flags, renders the script with
  escaped parameters, installs it into KWin, waits for the decision, tears the
  script down and conditionally launches a fallback command; its post-install
  control flow is modelled as a pure function of the outcomes of the external
  calls it makes.

Machine strings are modelled as Lean `String` / `List Char`; JavaScript regular
expression search is modelled for the literal (metacharacter-free) patterns the
properties below exercise.
-/

namespace Jumpkwapp

/-- Auxiliary for the regex model: `charsStartWith pat s` is true when `pat` is
a prefix of `s` (character lists compared with `==`). -/
def charsStartWith (pat s : List Char) : Bool :=
  match pat, s with
  | [], _ => true
  | _ :: _, [] => false
  | p :: ps, c :: cs => (p == c) && charsStartWith ps cs

/-- Auxiliary for the regex model: `charsContain pat s` is true when `pat`
occurs as a contiguous run somewhere in `s` (in particular the empty pattern
occurs in every list). -/
def charsContain (pat : List Char) : List Char → Bool
  | [] => charsStartWith pat []
  | c :: cs => charsStartWith pat (c :: cs) || charsContain pat cs

/-- Models JavaScript `new RegExp(pattern, flags).exec(subject) !== null` for
literal patterns (no regex metacharacters), which is what the verified
properties exercise: a search for the pattern anywhere in the subject, folding
case on both sides when the RegExp was built with the case-insensitive flag,
exactly as in src/kwin_script_template.js lines 26-27 and 36-37.  An empty
pattern matches every subject, as in JavaScript. -/
def jsRegexSearch (pattern subject : String) (caseInsensitive : Bool) : Bool :=
  if caseInsensitive then
    charsContain (pattern.data.map Char.toLower) (subject.data.map Char.toLower)
  else
    charsContain pattern.data subject.data

/-- A KWin window (KWin::XdgToplevelWindow / KWin::X11Window) with the
attributes the script reads or writes.  `id` stands for the object reference
used by the JavaScript identity comparisons `===` / `!==`; `desktops` is
`none` when the property is `undefined` on the host. -/
structure Window where
  id : Nat
  resourceClass : String
  caption : String
  onAllDesktops : Bool
  desktops : Option (List Nat)
  minimized : Bool
  stackingOrder : Int
deriving DecidableEq, Repr

/-- The mutable host state the script observes and updates: the enumerated
window list (`workspace.windowList()`), the active window reference
(`workspace.activeWindow`, `none` for null) and the current virtual desktop
(`workspace.currentDesktop`, `none` for undefined). -/
structure Workspace where
  windows : List Window
  activeWindow : Option Nat
  currentDesktop : Option Nat
deriving DecidableEq, Repr

/-- Model of `isOnCurrentDesktop` (src/kwin_script_template.js lines 6-14):
true when the window is on all desktops, or its desktop membership contains
the current desktop; falls back to true when either property is undefined. -/
def isOnCurrentDesktop (ws : Workspace) (client : Window) : Bool :=
  if client.onAllDesktops then true
  else
    match ws.currentDesktop, client.desktops with
    | some d, some ds => ds.contains d
    | _, _ => true

/-- The per-window filter conditions of the loop body of `findMatchingClients`
(src/kwin_script_template.js lines 33-38): exact class equality when an exact
class is supplied, class-regex search when a class regex is supplied, and the
case-insensitive caption search only when neither class filter is supplied. -/
def windowMatchesFilters (clientClass clientCaption clientClassRegex : String)
    (client : Window) : Bool :=
  let isCompareToClass := decide (0 < clientClass.length)
  let isCompareToRegex := decide (0 < clientClassRegex.length)
  let classCompare := isCompareToClass && (client.resourceClass == clientClass)
  let classRegexCompare :=
    isCompareToRegex && jsRegexSearch clientClassRegex client.resourceClass false
  let captionCompare :=
    !isCompareToClass && !isCompareToRegex && jsRegexSearch clientCaption client.caption true
  classCompare || classRegexCompare || captionCompare

/-- Model of `findMatchingClients` (src/kwin_script_template.js lines 24-47):
filters the enumerated window list by the filter conditions, skipping windows
off the current desktop when `currentDesktopOnly` is set. -/
def findMatchingClients (clientClass clientCaption clientClassRegex : String)
    (currentDesktopOnly : Bool) (ws : Workspace) : List Window :=
  ws.windows.filter (fun client =>
    windowMatchesFilters clientClass clientCaption clientClassRegex client &&
      !(currentDesktopOnly && !(isOnCurrentDesktop ws client)))

/-- Model of `setActiveClient` (src/kwin_script_template.js lines 53-55):
assigns `workspace.activeWindow`. -/
def setActiveClient (ws : Workspace) (client : Window) : Workspace :=
  { ws with activeWindow := some client.id }

/-- Model of `client.minimized = !client.minimized`
(src/kwin_script_template.js line 88): flips the minimized state of the window
with the given identity. -/
def toggleClientMinimized (ws : Workspace) (cid : Nat) : Workspace :=
  { ws with
    windows := ws.windows.map (fun w =>
      if w.id = cid then { w with minimized := !w.minimized } else w) }

/-- The host-visible actions the script performs, in program order:
the D-Bus `ShouldLaunch` call (decision true = no match), window activation,
and a minimized-state flip. -/
inductive Effect where
  | dbusShouldLaunch (addr : String) (noMatch : Bool)
  | activate (cid : Nat)
  | toggleMinimized (cid : Nat)
deriving DecidableEq, Repr

/-- Stable insertion of a window into a list ascending by `stackingOrder`. -/
def insertByStacking (w : Window) : List Window → List Window
  | [] => [w]
  | x :: xs =>
    if w.stackingOrder ≤ x.stackingOrder then w :: x :: xs
    else x :: insertByStacking w xs

/-- Models `matchingClients.sort(function (a, b) { return a.stackingOrder -
b.stackingOrder; })` (src/kwin_script_template.js lines 99-101): a stable sort
ascending by `stackingOrder`. -/
def sortByStacking (l : List Window) : List Window :=
  l.foldr insertByStacking []

/-- Model of `kwinActivateClient` (src/kwin_script_template.js lines 67-111).
Returns the effect trace in program order together with the updated workspace:
no match reports `ShouldLaunch true` (when a D-Bus address was supplied) and
does nothing else; otherwise `ShouldLaunch false` is reported first, then a
single match is activated (or, when already active and `toggle` is set, its
minimized state is flipped), and with several matches the list is sorted by
stacking order and either the back-most match (when the active window is among
the matches) or the top-most match (when it is not) is activated. -/
def kwinActivateClient (clientClass clientCaption clientClassRegex : String)
    (toggle currentDesktopOnly : Bool) (dbusAddr : String) (ws : Workspace) :
    List Effect × Workspace :=
  match findMatchingClients clientClass clientCaption clientClassRegex currentDesktopOnly ws with
  | [] =>
    (if dbusAddr ≠ "" then [Effect.dbusShouldLaunch dbusAddr true] else [], ws)
  | [client] =>
    let sig := if dbusAddr ≠ "" then [Effect.dbusShouldLaunch dbusAddr false] else []
    if ws.activeWindow ≠ some client.id then
      (sig ++ [Effect.activate client.id], setActiveClient ws client)
    else if toggle then
      (sig ++ [Effect.toggleMinimized client.id], toggleClientMinimized ws client.id)
    else
      (sig, ws)
  | a :: b :: rest =>
    let sig := if dbusAddr ≠ "" then [Effect.dbusShouldLaunch dbusAddr false] else []
    let activeIsMatching := (a :: b :: rest).any (fun c => ws.activeWindow == some c.id)
    let sorted := sortByStacking (a :: b :: rest)
    if activeIsMatching then
      match sorted.head? with
      | some nextClient =>
        (sig ++ [Effect.activate nextClient.id], setActiveClient ws nextClient)
      | none => (sig, ws)
    else
      match sorted.getLast? with
      | some newestClient =>
        (sig ++ [Effect.activate newestClient.id], setActiveClient ws newestClient)
      | none => (sig, ws)

/-- Three-window scene from the spec: two Konsole windows and a Dolphin
window, none of them active; the Konsole window with id 2 is the top-most
match (highest stacking order). -/
def konsoleScene : Workspace :=
  { windows :=
      [ { id := 1, resourceClass := "Konsole", caption := "shell one",
          onAllDesktops := false, desktops := some [1], minimized := false,
          stackingOrder := 5 },
        { id := 2, resourceClass := "Konsole", caption := "shell two",
          onAllDesktops := false, desktops := some [1], minimized := false,
          stackingOrder := 9 },
        { id := 3, resourceClass := "Dolphin", caption := "files",
          onAllDesktops := false, desktops := some [1], minimized := false,
          stackingOrder := 7 } ],
    activeWindow := none,
    currentDesktop := some 1 }

/-- Scene with a single Dolphin window, used as a no-match input for the
`exactClass = "Konsole"` filter. -/
def dolphinOnlyScene : Workspace :=
  { windows :=
      [ { id := 3, resourceClass := "Dolphin", caption := "files",
          onAllDesktops := false, desktops := some [1], minimized := false,
          stackingOrder := 7 } ],
    activeWindow := none,
    currentDesktop := some 1 }

/-- Two Konsole windows, none active: input for the repeated-cycling
analysis. -/
def konsolePair : Workspace :=
  { windows :=
      [ { id := 1, resourceClass := "Konsole", caption := "shell one",
          onAllDesktops := false, desktops := some [1], minimized := false,
          stackingOrder := 1 },
        { id := 2, resourceClass := "Konsole", caption := "shell two",
          onAllDesktops := false, desktops := some [1], minimized := false,
          stackingOrder := 2 } ],
    activeWindow := none,
    currentDesktop := some 1 }

/-- One run of the script with filter exactClass Konsole, toggle off and no
D-Bus address: the workspace after the script executes once. -/
def cycleStep (ws : Workspace) : Workspace :=
  (kwinActivateClient "Konsole" "" "" false false "" ws).2

/-- The single Konsole window of the singleton-match scene. -/
def konsoleSolo : Window :=
  { id := 1, resourceClass := "Konsole", caption := "shell one",
    onAllDesktops := false, desktops := some [1], minimized := false,
    stackingOrder := 5 }

/-- A scene in which exactly one window matches the Konsole filter. -/
def soloScene : Workspace :=
  { windows :=
      [ konsoleSolo,
        { id := 3, resourceClass := "Dolphin", caption := "files",
          onAllDesktops := false, desktops := some [1], minimized := false,
          stackingOrder := 7 } ],
    activeWindow := none,
    currentDesktop := some 1 }

/-- Host-visible events of the modelled post-install section of `run`:
a synchronous invocation of the installed script's stop entry point, the
scheduling of the deferred asynchronous stop (a goroutine that sleeps 150
milliseconds before stopping — never awaited, so never executed before the
process exits), and the start of the fallback command. -/
inductive RunEvent where
  | stopCall
  | stopSchedule
  | launchCmd
deriving DecidableEq, Repr

/-- Model of `run` (src/main.go lines 136-188) from the point where the KWin
script has been loaded successfully.  Each Bool argument is the outcome of the
corresponding external call (listener export, script run, explicit script
stop, command start); `wait = none` models the 5-second decision timeout and
`wait = some b` a received decision `b`.  Returns the events occurring before
process exit, in program order, paired with whether `run` returns nil.  The
deferred cleanup (lines 137-150) runs on every return: with a fallback command
configured it invokes stop synchronously unless the explicit stop already
succeeded (`stopped = true`); with no fallback command it only schedules the
asynchronous stop, which the exiting process does not wait for. -/
def runAfterInstall (cmdConfigured exportOk runOk stopOk launchOk : Bool)
    (wait : Option Bool) : List RunEvent × Bool :=
  if cmdConfigured && !exportOk then
    ([RunEvent.stopCall], false)
  else if !runOk then
    (if cmdConfigured then [RunEvent.stopCall] else [RunEvent.stopSchedule], false)
  else if !cmdConfigured then
    ([RunEvent.stopSchedule], true)
  else
    match wait with
    | none => ([RunEvent.stopCall], false)
    | some shouldLaunch =>
      if !stopOk then ([RunEvent.stopCall, RunEvent.stopCall], false)
      else if shouldLaunch then ([RunEvent.stopCall, RunEvent.launchCmd], launchOk)
      else ([RunEvent.stopCall], true)

/-- Model of `main` (src/main.go lines 60-66): the process exits 0 when `run`
returns nil and 1 otherwise. -/
def mainExitCode (result : List RunEvent × Bool) : Nat :=
  if result.2 then 0 else 1

/-- The backslash character. -/
def backslashChar : Char := Char.ofNat 92

/-- The single-quote character. -/
def singleQuoteChar : Char := Char.ofNat 39

/-- The line-feed character. -/
def newlineChar : Char := Char.ofNat 10

/-- The carriage-return character. -/
def carriageReturnChar : Char := Char.ofNat 13

/-- The horizontal-tab character. -/
def tabChar : Char := Char.ofNat 9

/-- Per-character action of `jsReplacer` (src/main.go lines 278-284): escape a
backslash, a single quote, a newline, a carriage return or a tab with a
backslash; pass every other character through. -/
def escapeCharJS (c : Char) : List Char :=
  if c = backslashChar then [backslashChar, backslashChar]
  else if c = singleQuoteChar then [backslashChar, singleQuoteChar]
  else if c = newlineChar then [backslashChar, 'n']
  else if c = carriageReturnChar then [backslashChar, 'r']
  else if c = tabChar then [backslashChar, 't']
  else [c]

/-- Model of `escapeForJS` (src/main.go lines 286-288): the replacer's patterns
are distinct single characters, so the replacement acts on each character
independently, left to right. -/
def escapeForJS (value : String) : String :=
  ⟨(value.data.map escapeCharJS).flatten⟩

/-- JavaScript decoding of one escaped character inside a string literal, per
the host's string semantics (ECMA-262): n, r, t, b, f, v, 0 denote control
characters and any other escaped character denotes itself — in particular an
escaped backslash or quote.  Hex and unicode escapes and line continuations
are not modelled; the escaper never emits them. -/
def decodeJsEscape (d : Char) : Char :=
  if d = 'n' then newlineChar
  else if d = 'r' then carriageReturnChar
  else if d = 't' then tabChar
  else if d = 'b' then Char.ofNat 8
  else if d = 'f' then Char.ofNat 12
  else if d = 'v' then Char.ofNat 11
  else if d = '0' then Char.ofNat 0
  else d

/-- Parses the body of a JavaScript single-quoted string literal under the
host's string semantics: consumes characters up to the closing unescaped
single quote, decoding escape sequences; yields the decoded value together
with the input following the closing quote, or none when the literal is
unterminated. -/
def parseSingleQuotedBody : List Char → Option (List Char × List Char)
  | [] => none
  | [c] => if c = singleQuoteChar then some ([], []) else none
  | c :: d :: rest =>
    if c = singleQuoteChar then some ([], d :: rest)
    else if c = backslashChar then
      match parseSingleQuotedBody rest with
      | none => none
      | some (body, after) => some (decodeJsEscape d :: body, after)
    else
      match parseSingleQuotedBody (d :: rest) with
      | none => none
      | some (body, after) => some (c :: body, after)

/-- Rendering a value into the script's single-quoted literal context, as the
template line of src/kwin_script_template.js does with the substituted
fields. -/
def renderSingleQuoted (s : String) : List Char :=
  singleQuoteChar :: s.data ++ [singleQuoteChar]

/-- Decodes a complete single-quoted literal: an opening quote, a body, the
closing quote, and nothing after it. -/
def parseSingleQuotedLiteral (l : List Char) : Option (List Char) :=
  match l with
  | [] => none
  | c :: rest =>
    if c = singleQuoteChar then
      match parseSingleQuotedBody rest with
      | some (body, []) => some body
      | _ => none
    else none

/-- Model of `config` (src/main.go lines 30-37). -/
structure config where
  filterClass : String
  filterAlt : String
  filterRegex : String
  currentDesktop : Bool
  toggle : Bool
  command : String
deriving DecidableEq, Repr

/-- Model of `firstNonEmpty` (src/main.go lines 290-297): the first non-empty
value, or the empty string. -/
def firstNonEmpty : List String → String
  | [] => ""
  | v :: rest => if v ≠ "" then v else firstNonEmpty rest

/-- The ASCII whitespace trimmed by `strings.TrimSpace` (space, tab, newline,
vertical tab, form feed, carriage return); the Unicode-only space characters
Go also trims are not exercised here. -/
def isGoSpace (c : Char) : Bool :=
  c == Char.ofNat 32 || c == tabChar || c == newlineChar ||
    c == carriageReturnChar || c == Char.ofNat 11 || c == Char.ofNat 12

/-- Model of `strings.TrimSpace` as used in `parseFlags` (src/main.go line
90): drop whitespace from both ends. -/
def trimSpace (s : String) : String :=
  ⟨((s.data.dropWhile isGoSpace).reverse.dropWhile isGoSpace).reverse⟩

/-- Model of `parseFlags` (src/main.go lines 68-92), as a function of the
parsed flag values: each string option takes the long flag's value when it is
non-empty and otherwise the short alias's; the booleans are or-ed; the
fallback command is trimmed of surrounding whitespace. -/
def parseFlags (filterClass filterClassShort filterAlt filterAltShort
    filterRegex filterRegexShort : String)
    (currentDesktop currentDesktopShort toggle toggleShort : Bool)
    (command commandShort : String) : config :=
  { filterClass := firstNonEmpty [filterClass, filterClassShort]
    filterAlt := firstNonEmpty [filterAlt, filterAltShort]
    filterRegex := firstNonEmpty [filterRegex, filterRegexShort]
    currentDesktop := currentDesktop || currentDesktopShort
    toggle := toggle || toggleShort
    command := trimSpace (firstNonEmpty [command, commandShort]) }

/-- The empty pattern occurs in every character list. -/
theorem charsContain_nil (l : List Char) : charsContain [] l = true := by
  cases l <;> simp [charsContain, charsStartWith]

/-- Membership in the match set, characterised by the filter conditions of the
source: a window is selected iff it is enumerated, satisfies exact-class
equality, or class-regex search, or — only when neither class filter is
supplied — the case-insensitive caption search, and survives the optional
current-desktop restriction. -/
theorem mem_findMatchingClients_iff (cc cp cr : String) (d : Bool)
    (ws : Workspace) (w : Window) :
    w ∈ findMatchingClients cc cp cr d ws ↔
      w ∈ ws.windows ∧
        ((0 < cc.length ∧ w.resourceClass = cc) ∨
         (0 < cr.length ∧ jsRegexSearch cr w.resourceClass false = true) ∨
         (¬ 0 < cc.length ∧ ¬ 0 < cr.length ∧ jsRegexSearch cp w.caption true = true)) ∧
        (d = false ∨ isOnCurrentDesktop ws w = true) := by
  have hd := Bool.eq_false_or_eq_true d
  simp only [findMatchingClients, List.mem_filter, windowMatchesFilters,
    Bool.and_eq_true, Bool.or_eq_true, Bool.not_eq_true', Bool.not_eq_false',
    decide_eq_true_eq, decide_eq_false_iff_not, beq_iff_eq, Bool.and_eq_false_iff]
  tauto

/-- Inserting a window grows the list by one. -/
theorem length_insertByStacking (w : Window) (l : List Window) :
    (insertByStacking w l).length = l.length + 1 := by
  induction l with
  | nil => rfl
  | cons x xs ih =>
    simp only [insertByStacking]
    split
    · rfl
    · simp [List.length_cons, ih]

/-- Sorting preserves the length of the match set. -/
theorem length_sortByStacking (l : List Window) :
    (sortByStacking l).length = l.length := by
  induction l with
  | nil => rfl
  | cons x xs ih =>
    show (insertByStacking x (sortByStacking xs)).length = xs.length + 1
    rw [length_insertByStacking, ih]

/-- Sorting a non-empty match set yields a non-empty list. -/
theorem sortByStacking_ne_nil {l : List Window} (h : l ≠ []) :
    sortByStacking l ≠ [] := by
  intro h0
  apply h
  have hlen := length_sortByStacking l
  rw [h0] at hlen
  exact List.length_eq_zero.mp hlen.symm

/-- C2: the Selector applies the filters with the stated precedence — a window
is selected iff it passes the exact-class comparison (tried first, when an
exact class is supplied), or the class-regex search (when a class regex is
supplied), or the caption search, which is attempted only when neither class
filter is set and is case-insensitive; an empty caption pattern matches every
window.  The optional current-desktop restriction applies on top. -/
theorem selector_precedence (cc cp cr : String) (d : Bool) (ws : Workspace)
    (w : Window) :
    (w ∈ findMatchingClients cc cp cr d ws ↔
      w ∈ ws.windows ∧
        ((0 < cc.length ∧ w.resourceClass = cc) ∨
         (0 < cr.length ∧ jsRegexSearch cr w.resourceClass false = true) ∨
         (¬ 0 < cc.length ∧ ¬ 0 < cr.length ∧ jsRegexSearch cp w.caption true = true)) ∧
        (d = false ∨ isOnCurrentDesktop ws w = true)) ∧
    jsRegexSearch "" w.caption true = true := by
  refine ⟨mem_findMatchingClients_iff cc cp cr d ws w, ?_⟩
  simp [jsRegexSearch, charsContain_nil]

/-- C9: class-regex matching is case-sensitive — with only the class regex
set, a window whose resourceClass the pattern fails to match without case
folding is not selected, even where the case-insensitive search (as used for
captions) would succeed, as witnessed by the pattern konsole against the
class Konsole. -/
theorem classRegex_case_sensitive (cp : String) (d : Bool) (ws : Workspace)
    (w : Window) (cr : String) (hcr : 0 < cr.length)
    (hmiss : jsRegexSearch cr w.resourceClass false = false) :
    w ∉ findMatchingClients "" cp cr d ws ∧
    jsRegexSearch "konsole" "Konsole" false = false ∧
    jsRegexSearch "konsole" "Konsole" true = true := by
  refine ⟨?_, by decide, by decide⟩
  rw [mem_findMatchingClients_iff]
  rintro ⟨-, hmatch, -⟩
  rcases hmatch with ⟨h0, -⟩ | ⟨-, hs⟩ | ⟨-, h0, -⟩
  · exact absurd h0 (by decide)
  · rw [hmiss] at hs
    exact Bool.false_ne_true hs
  · exact h0 hcr

/-- C9 witness: a concrete Workspace holding one Konsole window, filtered with
the class regex konsole, selects nothing. -/
theorem classRegex_case_sensitive_witness :
    (0 < ("konsole" : String).length ∧
      jsRegexSearch "konsole"
        ({ id := 1, resourceClass := "Konsole", caption := "shell one",
           onAllDesktops := false, desktops := some [1], minimized := false,
           stackingOrder := 5 } : Window).resourceClass false = false) ∧
    ({ id := 1, resourceClass := "Konsole", caption := "shell one",
       onAllDesktops := false, desktops := some [1], minimized := false,
       stackingOrder := 5 } : Window) ∉
        findMatchingClients "" "" "konsole" false konsoleScene ∧
    jsRegexSearch "konsole" "Konsole" false = false ∧
    jsRegexSearch "konsole" "Konsole" true = true :=
  ⟨⟨by decide, by decide⟩,
    classRegex_case_sensitive "" false konsoleScene
      { id := 1, resourceClass := "Konsole", caption := "shell one",
        onAllDesktops := false, desktops := some [1], minimized := false,
        stackingOrder := 5 } "konsole" (by decide) (by decide)⟩

/-- C4: with an empty MatchSet the script reports the no-match decision (when
a D-Bus address is configured), performs no activation and no minimized-state
change, and leaves the workspace untouched. -/
theorem no_match_no_action (cc cp cr : String) (tg d : Bool) (addr : String)
    (ws : Workspace) (h : findMatchingClients cc cp cr d ws = []) :
    kwinActivateClient cc cp cr tg d addr ws =
      (if addr ≠ "" then [Effect.dbusShouldLaunch addr true] else [], ws) := by
  simp only [kwinActivateClient, h]

/-- C4 witness: the Konsole filter on a Dolphin-only scene selects nothing, so
the script only reports the no-match decision and changes no state. -/
theorem no_match_no_action_witness :
    findMatchingClients "Konsole" "" "" false dolphinOnlyScene = [] ∧
    kwinActivateClient "Konsole" "" "" false false ":1.42" dolphinOnlyScene =
      (if (":1.42" : String) ≠ "" then [Effect.dbusShouldLaunch ":1.42" true] else [],
        dolphinOnlyScene) :=
  ⟨by decide,
    no_match_no_action "Konsole" "" "" false false ":1.42" dolphinOnlyScene (by decide)⟩

/-- C6: whenever the MatchSet is non-empty and a D-Bus address is configured,
the handled decision (`ShouldLaunch false`) is the first effect in the trace,
and every later effect is an activation or a minimized-state change — the
signal is never emitted after, or interleaved with, the focus side effect. -/
theorem handled_signal_first (cc cp cr : String) (tg d : Bool) (addr : String)
    (ws : Workspace) (haddr : addr ≠ "")
    (hne : findMatchingClients cc cp cr d ws ≠ []) :
    ∃ rest, (kwinActivateClient cc cp cr tg d addr ws).1 =
        Effect.dbusShouldLaunch addr false :: rest ∧
      ∀ e ∈ rest, ∀ a g, e ≠ Effect.dbusShouldLaunch a g := by
  rcases hM : findMatchingClients cc cp cr d ws with _ | ⟨a, _ | ⟨b, t⟩⟩
  · exact absurd hM hne
  · simp only [kwinActivateClient, hM]
    rw [if_pos haddr]
    split_ifs with h1 h2
    · refine ⟨[Effect.activate a.id], rfl, ?_⟩
      intro e he x g
      simp only [List.mem_singleton] at he
      subst he
      simp
    · refine ⟨[Effect.toggleMinimized a.id], rfl, ?_⟩
      intro e he x g
      simp only [List.mem_singleton] at he
      subst he
      simp
    · refine ⟨[], rfl, ?_⟩
      intro e he x g
      simp at he
  · cases hS : sortByStacking (a :: b :: t) with
    | nil => exact absurd hS (sortByStacking_ne_nil (by simp))
    | cons w rest =>
      cases hAct : (a :: b :: t).any (fun c => ws.activeWindow == some c.id) with
      | true =>
        simp only [kwinActivateClient, hM, hAct, hS, List.head?, if_true]
        rw [if_pos haddr]
        refine ⟨[Effect.activate w.id], rfl, ?_⟩
        intro e he x g
        simp only [List.mem_singleton] at he
        subst he
        simp
      | false =>
        cases hL : (w :: rest).getLast? with
        | none => simp [List.getLast?_eq_none_iff] at hL
        | some nw =>
          simp only [kwinActivateClient, hM, hAct, hS, hL, if_false, Bool.false_eq_true,
            if_neg (Bool.false_ne_true)]
          rw [if_pos haddr]
          refine ⟨[Effect.activate nw.id], rfl, ?_⟩
          intro e he x g
          simp only [List.mem_singleton] at he
          subst he
          simp

/-- C6 witness: on the three-window Konsole scene with a D-Bus address
configured, the handled signal leads the trace and the rest is the activation. -/
theorem handled_signal_first_witness :
    ((":1.42" : String) ≠ "" ∧ findMatchingClients "Konsole" "" "" false konsoleScene ≠ []) ∧
    ∃ rest, (kwinActivateClient "Konsole" "" "" false false ":1.42" konsoleScene).1 =
        Effect.dbusShouldLaunch ":1.42" false :: rest ∧
      ∀ e ∈ rest, ∀ a g, e ≠ Effect.dbusShouldLaunch a g :=
  ⟨⟨by decide, by decide⟩,
    handled_signal_first "Konsole" "" "" false false ":1.42" konsoleScene
      (by decide) (by decide)⟩

/-- C1: with at least two matches, the Cycler sorts the MatchSet ascending by
stackingOrder; when the active window is among the matches it activates the
head of the sorted list (lowest stackingOrder, furthest back), otherwise the
last of the sorted list (highest stackingOrder, topmost).  In particular, on
the scene with classes Konsole, Konsole and Dolphin, filter exactClass =
Konsole and no active window, the MatchSet has size 2 and the Konsole window
with the highest stackingOrder (id 2) becomes active. -/
theorem cycler_multi_correct (cc cp cr : String) (tg d : Bool) (addr : String)
    (ws : Workspace)
    (h2 : 2 ≤ (findMatchingClients cc cp cr d ws).length) :
    (((findMatchingClients cc cp cr d ws).any
          (fun c => ws.activeWindow == some c.id) = true →
        ∃ w rest, sortByStacking (findMatchingClients cc cp cr d ws) = w :: rest ∧
          (kwinActivateClient cc cp cr tg d addr ws).2.activeWindow = some w.id) ∧
     ((findMatchingClients cc cp cr d ws).any
          (fun c => ws.activeWindow == some c.id) = false →
        ∃ w, (sortByStacking (findMatchingClients cc cp cr d ws)).getLast? = some w ∧
          (kwinActivateClient cc cp cr tg d addr ws).2.activeWindow = some w.id)) ∧
    ((findMatchingClients "Konsole" "" "" false konsoleScene).length = 2 ∧
     (kwinActivateClient "Konsole" "" "" false false "" konsoleScene).2.activeWindow =
        some 2) := by
  refine ⟨⟨?_, ?_⟩, by decide⟩
  · intro hAct
    rcases hM : findMatchingClients cc cp cr d ws with _ | ⟨a, _ | ⟨b, t⟩⟩
    · rw [hM] at h2; simp at h2
    · rw [hM] at h2; simp at h2
    · rw [hM] at hAct
      cases hS : sortByStacking (a :: b :: t) with
      | nil => exact absurd hS (sortByStacking_ne_nil (by simp))
      | cons w rest =>
        refine ⟨w, rest, rfl, ?_⟩
        simp [kwinActivateClient, hM, hAct, hS, List.head?, setActiveClient]
  · intro hAct
    rcases hM : findMatchingClients cc cp cr d ws with _ | ⟨a, _ | ⟨b, t⟩⟩
    · rw [hM] at h2; simp at h2
    · rw [hM] at h2; simp at h2
    · rw [hM] at hAct
      cases hS : sortByStacking (a :: b :: t) with
      | nil => exact absurd hS (sortByStacking_ne_nil (by simp))
      | cons w rest =>
        cases hL : (w :: rest).getLast? with
        | none => simp [List.getLast?_eq_none_iff] at hL
        | some nw =>
          refine ⟨nw, rfl, ?_⟩
          simp [kwinActivateClient, hM, hAct, hS, hL, setActiveClient]

/-- C1 witness: the general cycling statement instantiated on the Konsole /
Konsole / Dolphin scene, whose MatchSet has two windows and no active member,
so the topmost match (getLast of the sorted MatchSet) becomes active. -/
theorem cycler_multi_correct_witness :
    (2 ≤ (findMatchingClients "Konsole" "" "" false konsoleScene).length) ∧
    ((((findMatchingClients "Konsole" "" "" false konsoleScene).any
          (fun c => konsoleScene.activeWindow == some c.id) = true →
        ∃ w rest,
          sortByStacking (findMatchingClients "Konsole" "" "" false konsoleScene) =
            w :: rest ∧
          (kwinActivateClient "Konsole" "" "" false false ":1.42" konsoleScene).2.activeWindow =
            some w.id) ∧
      ((findMatchingClients "Konsole" "" "" false konsoleScene).any
          (fun c => konsoleScene.activeWindow == some c.id) = false →
        ∃ w,
          (sortByStacking (findMatchingClients "Konsole" "" "" false konsoleScene)).getLast? =
            some w ∧
          (kwinActivateClient "Konsole" "" "" false false ":1.42" konsoleScene).2.activeWindow =
            some w.id)) ∧
     ((findMatchingClients "Konsole" "" "" false konsoleScene).length = 2 ∧
      (kwinActivateClient "Konsole" "" "" false false "" konsoleScene).2.activeWindow =
        some 2)) :=
  ⟨by decide,
    cycler_multi_correct "Konsole" "" "" false false ":1.42" konsoleScene (by decide)⟩

/-- C3 counterexample: on the success path with no fallback command configured
(install succeeded, run succeeded), the deferred cleanup only schedules the
asynchronous stop; the stop entry point is invoked zero times — not exactly
once — before the process exits. -/
theorem stop_before_exit_counterexample :
    (runAfterInstall false true true true true none).1.count RunEvent.stopCall = 0 ∧
    ¬ (runAfterInstall false true true true true none).1.count RunEvent.stopCall = 1 := by
  decide

/-- C3 amended: on every exit path after a successful install teardown is
triggered exactly once, but not always as a synchronous stop before exit —
with no fallback command configured the stop is only scheduled asynchronously
and is never invoked before the process exits, and with a fallback command
configured the stop entry point is invoked exactly once before exit on every
path, except that when the explicit stop call itself fails the deferred guard
invokes it a second time. -/
theorem stop_invocation_discipline (cmdConfigured exportOk runOk stopOk launchOk : Bool)
    (wait : Option Bool) :
    ((runAfterInstall cmdConfigured exportOk runOk stopOk launchOk wait).1.count
        RunEvent.stopSchedule = if cmdConfigured then 0 else 1) ∧
    ((runAfterInstall cmdConfigured exportOk runOk stopOk launchOk wait).1.count
        RunEvent.stopCall =
      if cmdConfigured then
        (if exportOk && runOk && wait.isSome && !stopOk then 2 else 1)
      else 0) := by
  revert cmdConfigured exportOk runOk stopOk launchOk wait
  decide

/-- C5 counterexample: when the decision is no-match and starting the fallback
command fails, run returns the wrapped error, so the process exits with the
fatal code 1, not 0. -/
theorem fallback_failure_exit_counterexample :
    mainExitCode (runAfterInstall true true true true false (some true)) = 1 ∧
    ¬ mainExitCode (runAfterInstall true true true true false (some true)) = 0 := by
  decide

/-- C5 amended: a fallback-launch failure is fatal to the exit status — the
process exits 1; the installed script was already stopped, exactly once,
before the launch was attempted, so teardown is unaffected by the failure. -/
theorem fallback_failure_fatal :
    (runAfterInstall true true true true false (some true)).1 =
      [RunEvent.stopCall, RunEvent.launchCmd] ∧
    mainExitCode (runAfterInstall true true true true false (some true)) = 1 := by
  decide
/-- Parsing step: a leading single quote closes the body. -/
theorem parseSingleQuotedBody_quote (tail : List Char) :
    parseSingleQuotedBody (singleQuoteChar :: tail) = some ([], tail) := by
  cases tail <;> rfl

/-- Parsing step: a backslash decodes the following character and continues. -/
theorem parseSingleQuotedBody_escape (d : Char) (tail : List Char) :
    parseSingleQuotedBody (backslashChar :: d :: tail) =
      match parseSingleQuotedBody tail with
      | none => none
      | some (body, after) => some (decodeJsEscape d :: body, after) := by
  rfl

/-- Parsing step: any other character is consumed literally. -/
theorem parseSingleQuotedBody_plain (c d : Char) (tail : List Char)
    (hq : ¬ c = singleQuoteChar) (hb : ¬ c = backslashChar) :
    parseSingleQuotedBody (c :: d :: tail) =
      match parseSingleQuotedBody (d :: tail) with
      | none => none
      | some (body, after) => some (c :: body, after) := by
  show (if c = singleQuoteChar then some ([], d :: tail)
    else if c = backslashChar then
      match parseSingleQuotedBody tail with
      | none => none
      | some (body, after) => some (decodeJsEscape d :: body, after)
    else
      match parseSingleQuotedBody (d :: tail) with
      | none => none
      | some (body, after) => some (c :: body, after)) = _
  rw [if_neg hq, if_neg hb]

/-- Decoding the escaped form of a value, followed by a closing quote and any
remaining input, recovers the value exactly. -/
theorem parseSingleQuotedBody_escaped (l rest : List Char) :
    parseSingleQuotedBody ((l.map escapeCharJS).flatten ++ singleQuoteChar :: rest) =
      some (l, rest) := by
  induction l with
  | nil => simpa using parseSingleQuotedBody_quote rest
  | cons c cs ih =>
    by_cases h1 : c = backslashChar
    · subst h1
      have he : escapeCharJS backslashChar = [backslashChar, backslashChar] := by decide
      have hd : decodeJsEscape backslashChar = backslashChar := by decide
      simp only [List.map_cons, List.flatten_cons, he, List.cons_append, List.nil_append,
        List.append_assoc]
      rw [parseSingleQuotedBody_escape, ih, hd]
    · by_cases h2 : c = singleQuoteChar
      · subst h2
        have he : escapeCharJS singleQuoteChar = [backslashChar, singleQuoteChar] := by
          decide
        have hd : decodeJsEscape singleQuoteChar = singleQuoteChar := by decide
        simp only [List.map_cons, List.flatten_cons, he, List.cons_append, List.nil_append,
          List.append_assoc]
        rw [parseSingleQuotedBody_escape, ih, hd]
      · by_cases h3 : c = newlineChar
        · subst h3
          have he : escapeCharJS newlineChar = [backslashChar, 'n'] := by decide
          have hd : decodeJsEscape 'n' = newlineChar := by decide
          simp only [List.map_cons, List.flatten_cons, he, List.cons_append,
            List.nil_append, List.append_assoc]
          rw [parseSingleQuotedBody_escape, ih, hd]
        · by_cases h4 : c = carriageReturnChar
          · subst h4
            have he : escapeCharJS carriageReturnChar = [backslashChar, 'r'] := by decide
            have hd : decodeJsEscape 'r' = carriageReturnChar := by decide
            simp only [List.map_cons, List.flatten_cons, he, List.cons_append,
              List.nil_append, List.append_assoc]
            rw [parseSingleQuotedBody_escape, ih, hd]
          · by_cases h5 : c = tabChar
            · subst h5
              have he : escapeCharJS tabChar = [backslashChar, 't'] := by decide
              have hd : decodeJsEscape 't' = tabChar := by decide
              simp only [List.map_cons, List.flatten_cons, he, List.cons_append,
                List.nil_append, List.append_assoc]
              rw [parseSingleQuotedBody_escape, ih, hd]
            · have he : escapeCharJS c = [c] := by
                simp [escapeCharJS, h1, h2, h3, h4, h5]
              simp only [List.map_cons, List.flatten_cons, he, List.cons_append,
                List.nil_append]
              cases hnext : (cs.map escapeCharJS).flatten ++ singleQuoteChar :: rest with
              | nil => simp at hnext
              | cons d tail =>
                rw [parseSingleQuotedBody_plain c d tail h2 h1, ← hnext, ih]

/-- C7: escaping any value — in particular one containing backslashes, single
quotes and newlines — and rendering it into the script's single-quoted literal
context yields a literal that the host's JavaScript string semantics decodes
back to the original value: escape followed by host-side unescape is the
identity, and the escaped text cannot terminate the literal early. -/
theorem escape_roundtrip (value : String) :
    parseSingleQuotedLiteral (renderSingleQuoted (escapeForJS value)) = some value.data := by
  have h := parseSingleQuotedBody_escaped value.data []
  show parseSingleQuotedLiteral
      (singleQuoteChar :: ((value.data.map escapeCharJS).flatten ++ [singleQuoteChar])) =
    some value.data
  rw [show parseSingleQuotedLiteral
      (singleQuoteChar :: ((value.data.map escapeCharJS).flatten ++ [singleQuoteChar])) =
      (match parseSingleQuotedBody
          ((value.data.map escapeCharJS).flatten ++ [singleQuoteChar]) with
      | some (body, []) => some body
      | _ => none) from rfl]
  rw [show ((value.data.map escapeCharJS).flatten ++ [singleQuoteChar] : List Char) =
      (value.data.map escapeCharJS).flatten ++ singleQuoteChar :: [] from rfl, h]

/-- The match set does not depend on which window is active: it is computed
from the window list and the current desktop only. -/
theorem findMatchingClients_congr (cc cp cr : String) (d : Bool)
    (ws1 ws2 : Workspace) (hw : ws1.windows = ws2.windows)
    (hd : ws1.currentDesktop = ws2.currentDesktop) :
    findMatchingClients cc cp cr d ws1 = findMatchingClients cc cp cr d ws2 := by
  simp only [findMatchingClients, isOnCurrentDesktop, hw, hd]

/-- C8 counterexample: with two matching Konsole windows, an unchanged
MatchSet, toggleOnActive off and the window activated by the first run now
active, the second run still changes state — it cycles back to the window
with the lowest stacking order. -/
theorem cycler_repeat_counterexample :
    findMatchingClients "Konsole" "" "" false (cycleStep konsolePair) =
      findMatchingClients "Konsole" "" "" false konsolePair ∧
    (cycleStep konsolePair).activeWindow = some 2 ∧
    (cycleStep (cycleStep konsolePair)).activeWindow = some 1 ∧
    cycleStep (cycleStep konsolePair) ≠ cycleStep konsolePair := by
  decide

/-- C8 amended: with a singleton MatchSet, running the Cycler twice with
toggleOnActive off is idempotent — the second run (whose input has the window
activated by the first run as the active window) changes no state and performs
no activation and no minimized-state change.  (With two or more matches the
second run deliberately cycles to the back-most window instead.) -/
theorem cycler_idempotent_singleton (cc cp cr : String) (d : Bool)
    (addr : String) (ws : Workspace) (c : Window)
    (h : findMatchingClients cc cp cr d ws = [c]) :
    (kwinActivateClient cc cp cr false d addr
        (kwinActivateClient cc cp cr false d addr ws).2).2 =
      (kwinActivateClient cc cp cr false d addr ws).2 ∧
    ∀ e ∈ (kwinActivateClient cc cp cr false d addr
        (kwinActivateClient cc cp cr false d addr ws).2).1,
      ∀ i, e ≠ Effect.activate i ∧ e ≠ Effect.toggleMinimized i := by
  have hstate : (kwinActivateClient cc cp cr false d addr ws).2.activeWindow = some c.id ∧
      (kwinActivateClient cc cp cr false d addr ws).2.windows = ws.windows ∧
      (kwinActivateClient cc cp cr false d addr ws).2.currentDesktop = ws.currentDesktop := by
    by_cases h1 : ws.activeWindow = some c.id
    · simp [kwinActivateClient, h, h1, setActiveClient]
    · simp [kwinActivateClient, h, h1, setActiveClient]
  obtain ⟨hA, hW, hD⟩ := hstate
  have h2 : findMatchingClients cc cp cr d
      (kwinActivateClient cc cp cr false d addr ws).2 = [c] := by
    rw [findMatchingClients_congr cc cp cr d _ ws hW hD]
    exact h
  clear hW hD
  generalize hg : (kwinActivateClient cc cp cr false d addr ws).2 = ws1 at hA h2 ⊢
  constructor
  · simp [kwinActivateClient, h2, hA]
  · intro e he i
    by_cases haddr : addr = ""
    · simp [kwinActivateClient, h2, hA, haddr] at he
    · simp [kwinActivateClient, h2, hA, haddr] at he
      subst he
      simp

/-- C8 witness: the singleton-idempotence statement instantiated on the scene
with exactly one matching Konsole window. -/
theorem cycler_idempotent_singleton_witness :
    (findMatchingClients "Konsole" "" "" false soloScene = [konsoleSolo]) ∧
    ((kwinActivateClient "Konsole" "" "" false false ":1.42"
        (kwinActivateClient "Konsole" "" "" false false ":1.42" soloScene).2).2 =
      (kwinActivateClient "Konsole" "" "" false false ":1.42" soloScene).2 ∧
     ∀ e ∈ (kwinActivateClient "Konsole" "" "" false false ":1.42"
        (kwinActivateClient "Konsole" "" "" false false ":1.42" soloScene).2).1,
       ∀ i, e ≠ Effect.activate i ∧ e ≠ Effect.toggleMinimized i) :=
  ⟨by decide,
    cycler_idempotent_singleton "Konsole" "" "" false ":1.42" soloScene konsoleSolo
      (by decide)⟩

/-- A whitespace-only string trims to the empty string. -/
theorem trimSpace_all_space (s : String) (h : s.data.all isGoSpace = true) :
    trimSpace s = "" := by
  have hd : s.data.dropWhile isGoSpace = [] := by
    rw [List.dropWhile_eq_nil_iff]
    intro x hx
    exact List.all_eq_true.mp h x hx
  simp [trimSpace, hd]

/-- C10: for each string option (filter, filter-alternative, filter-regex,
command) given non-empty values on both the long flag and the short alias, the
long flag's value is used and the alias's is ignored; the fallback command is
trimmed of surrounding whitespace, and a whitespace-only command value yields
an empty command — no fallback configured. -/
theorem parseFlags_long_wins (fc fcS fa faS fr frS : String)
    (cd cdS tg tgS : Bool) (cmd cmdS : String)
    (h1 : fc ≠ "") (h2 : fa ≠ "") (h3 : fr ≠ "") (h4 : cmd ≠ "") :
    ((parseFlags fc fcS fa faS fr frS cd cdS tg tgS cmd cmdS).filterClass = fc ∧
     (parseFlags fc fcS fa faS fr frS cd cdS tg tgS cmd cmdS).filterAlt = fa ∧
     (parseFlags fc fcS fa faS fr frS cd cdS tg tgS cmd cmdS).filterRegex = fr ∧
     (parseFlags fc fcS fa faS fr frS cd cdS tg tgS cmd cmdS).command = trimSpace cmd) ∧
    ∀ c1 c2 : String, c1 ≠ "" → c1.data.all isGoSpace = true →
      (parseFlags fc fcS fa faS fr frS cd cdS tg tgS c1 c2).command = "" := by
  refine ⟨⟨?_, ?_, ?_, ?_⟩, ?_⟩
  · simp [parseFlags, firstNonEmpty, h1]
  · simp [parseFlags, firstNonEmpty, h2]
  · simp [parseFlags, firstNonEmpty, h3]
  · simp [parseFlags, firstNonEmpty, h4]
  · intro c1 c2 hne hsp
    simp [parseFlags, firstNonEmpty, hne, trimSpace_all_space c1 hsp]

/-- C10 witness: concrete long and short values for every option; a
whitespace-only command value produces an empty configured command. -/
theorem parseFlags_long_wins_witness :
    (("Konsole" : String) ≠ "" ∧ ("shell" : String) ≠ "" ∧ ("Kons.*" : String) ≠ "" ∧
      ("konsole --new-tab" : String) ≠ "") ∧
    ((parseFlags "Konsole" "AltClass" "shell" "alt" "Kons.*" "alt2"
        false true false true "konsole --new-tab" "other").filterClass = "Konsole" ∧
     (parseFlags "Konsole" "AltClass" "shell" "alt" "Kons.*" "alt2"
        false true false true "konsole --new-tab" "other").filterAlt = "shell" ∧
     (parseFlags "Konsole" "AltClass" "shell" "alt" "Kons.*" "alt2"
        false true false true "konsole --new-tab" "other").filterRegex = "Kons.*" ∧
     (parseFlags "Konsole" "AltClass" "shell" "alt" "Kons.*" "alt2"
        false true false true "konsole --new-tab" "other").command =
          trimSpace "konsole --new-tab") ∧
    ∀ c1 c2 : String, c1 ≠ "" → c1.data.all isGoSpace = true →
      (parseFlags "Konsole" "AltClass" "shell" "alt" "Kons.*" "alt2"
        false true false true c1 c2).command = "" :=
  ⟨⟨by decide, by decide, by decide, by decide⟩,
    parseFlags_long_wins "Konsole" "AltClass" "shell" "alt" "Kons.*" "alt2"
      false true false true "konsole --new-tab" "other"
      (by decide) (by decide) (by decide) (by decide)⟩
